import Mathlib

/-!
Shallow embedding of the eacd `chaincfg` package: the chain-parameter
registry (network profiles, registration, and the cross-network lookup
indices), together with the compact-difficulty decoding that the
proof-of-work limit claims are stated against.

Modelling conventions: Go strings are lists of code points (`List Nat`),
byte values are `Nat`, the `[4]byte` extended-key prefixes are length-4
`List Nat` values, `time.Duration` fields are `Int` nanoseconds, and the
package-level mutable maps (`registeredNets`, `pubKeyHashAddrIDs`,
`scriptHashAddrIDs`, `bech32SegwitPrefixes`, `hdPrivToPubKeyIDs`) form an
explicit `Registry` state threaded through `Register`.  The genesis-block
references held by `Params` are external data owned by another package
and are not modelled.
-/

namespace EacdChaincfg

/-- A Go string literal as its list of code points. -/
def strN (s : String) : List Nat := s.data.map Char.toNat

/-- The ASCII action of `strings.ToLower`: map each code point in the
range of uppercase letters to its lowercase counterpart (all strings the
registry handles are ASCII). -/
def stringsToLower (s : List Nat) : List Nat :=
  s.map (fun c => if 65 ≤ c ∧ c ≤ 90 then c + 32 else c)

/-- Checkpoint identifies a known good point in the block chain: a
height paired with the hex string of the hard-coded hash literal. -/
structure Checkpoint where
  Height : Int
  Hash : String
deriving DecidableEq, Repr

/-- DNSSeed identifies a DNS seed. -/
structure DNSSeed where
  Host : String
  HasFiltering : Bool
deriving DecidableEq, Repr

/-- ConsensusDeployment defines details related to a specific consensus
rule change that is voted in (BIP0009): a version bit, a start time and
an expire time (both uint64 median block times). -/
structure ConsensusDeployment where
  BitNumber : Nat
  StartTime : Nat
  ExpireTime : Nat
deriving DecidableEq, Repr

/-- DefinedDeployments is the number of currently defined deployments
(the array length of the `Deployments` field). -/
def DefinedDeployments : Nat := 3

/-- DeploymentTestDummy is the rule change deployment ID for testing
purposes (iota value 0). -/
def DeploymentTestDummy : Fin DefinedDeployments := ⟨0, by decide⟩

/-- DeploymentCSV is the rule change deployment ID for the CSV soft-fork
package (iota value 1). -/
def DeploymentCSV : Fin DefinedDeployments := ⟨1, by decide⟩

/-- DeploymentSegwit is the rule change deployment ID for the segwit
soft-fork package (iota value 2). -/
def DeploymentSegwit : Fin DefinedDeployments := ⟨2, by decide⟩

/-- Builds the fixed-size `[DefinedDeployments]ConsensusDeployment`
array from its three slot literals. -/
def mkDeployments (d0 d1 d2 : ConsensusDeployment)
    (i : Fin DefinedDeployments) : ConsensusDeployment :=
  if i.val = 0 then d0 else if i.val = 1 then d1 else d2

/-- Params defines an Earthcoin network by its parameters.  Field names
and order follow the Go struct; the genesis block/hash references are
external collaborator data and are omitted. -/
structure Params where
  Name : String
  Net : Nat
  DefaultPort : String
  DNSSeeds : List DNSSeed
  PowLimit : Nat
  PowLimitBits : Nat
  BIP0034Height : Int
  BIP0065Height : Int
  BIP0066Height : Int
  CoinbaseMaturity : Nat
  SubsidyReductionInterval : Int
  TargetTimespan : Int
  TargetTimePerBlock : Int
  RetargetAdjustmentFactor : Int
  ReduceMinDifficulty : Bool
  MinDiffReductionTime : Int
  GenerateSupported : Bool
  Checkpoints : List Checkpoint
  RuleChangeActivationThreshold : Nat
  MinerConfirmationWindow : Nat
  Deployments : Fin DefinedDeployments → ConsensusDeployment
  RelayNonStdTxs : Bool
  Bech32HRPSegwit : List Nat
  PubKeyHashAddrID : Nat
  ScriptHashAddrID : Nat
  PrivateKeyID : Nat
  WitnessPubKeyHashAddrID : Nat
  WitnessScriptHashAddrID : Nat
  HDPrivateKeyID : List Nat
  HDPublicKeyID : List Nat
  HDCoinType : Nat

/-- Modelled from the spec: the network magic constants come from the
wire package (`wire.MainNet`, `wire.TestNet`, `wire.TestNet4`,
`wire.SimNet`), whose source is absent from src.  The spec requires only
that a magic value uniquely identifies its peer-to-peer network, i.e.
that the four built-in magics are pairwise distinct; the concrete 32-bit
values below are placeholders carrying that distinctness. -/
def wireMainNet : Nat := 0xd9b4bef9

/-- Modelled from the spec: the regression-test network magic (see
`wireMainNet`). -/
def wireTestNet : Nat := 0xdab5bffa

/-- Modelled from the spec: the version-4 test network magic (see
`wireMainNet`). -/
def wireTestNet4 : Nat := 0x0709110b

/-- Modelled from the spec: the simulation network magic (see
`wireMainNet`). -/
def wireSimNet : Nat := 0x12141c16

/-- mainPowLimit is the highest proof of work value an Earthcoin block
can have for the main network. -/
def mainPowLimit : Nat :=
  0x0fffff000000000000000000000000000000000000000000000000000000

/-- regressionPowLimit is the highest proof of work value an Earthcoin
block can have for the regression test network: 2^255 - 1. -/
def regressionPowLimit : Nat := 2 ^ 255 - 1

/-- testNet4PowLimit is the highest proof of work value an Earthcoin
block can have for the test network (version 4). -/
def testNet4PowLimit : Nat :=
  0x0fffff000000000000000000000000000000000000000000000000000000

/-- simNetPowLimit is the highest proof of work value an Earthcoin block
can have for the simulation test network: 2^255 - 1. -/
def simNetPowLimit : Nat := 2 ^ 255 - 1

/-- MainNetParams defines the network parameters for the main Earthcoin
network. -/
def MainNetParams : Params where
  Name := "mainnet"
  Net := wireMainNet
  DefaultPort := "35677"
  DNSSeeds :=
    [ ⟨"85.25.44.119", true⟩
    , ⟨"13.114.218.80", true⟩
    , ⟨"159.69.19.237", false⟩
    , ⟨"46.105.62.121", false⟩
    , ⟨"46.101.126.142", false⟩
    , ⟨"212.237.21.74", true⟩
    , ⟨"109.169.63.180", true⟩
    , ⟨"5.9.10.66", false⟩
    , ⟨"209.97.179.113", false⟩
    , ⟨"45.77.86.161", false⟩ ]
  PowLimit := mainPowLimit
  PowLimitBits := 504365055
  BIP0034Height := 710000
  BIP0065Height := 99999999
  BIP0066Height := 99999999
  CoinbaseMaturity := 30
  SubsidyReductionInterval := 525600
  TargetTimespan := 1800000000000
  TargetTimePerBlock := 60000000000
  RetargetAdjustmentFactor := 16
  ReduceMinDifficulty := false
  MinDiffReductionTime := 0
  GenerateSupported := false
  Checkpoints :=
    [ ⟨100, "c3d91cb4726610d422f8652a5a7cc21bd42e1b8009c00462081c81316d9abad6"⟩
    , ⟨10000, "7b50ea3b42e613e65ec2aca6797a5780e1c545a617e4a610577fb4b040f0035b"⟩
    , ⟨30000, "43e2fe7c700191ddfabe2cd09dfd3fc9eb6331f3c19e59b3e4a87cfa88cac543"⟩
    , ⟨50000, "6a4f705b7a34de7dc1b6573b3595fde05c7b4303b35ede20a3b945244adc6c70"⟩
    , ⟨69500, "8387b49853928fc67d8b8421fd9214184db590eeecd90a200c9d902d8b42e11f"⟩
    , ⟨80000, "a7d7ac0b4b1f5eb56b50ad0693c47f47863b8df81f17514bcb5e59c0a4074eba"⟩
    , ⟨91000, "3f135e0e06ae032de5437ae2b981e3ab84c7d22310224a6e53c6e6e769e8f8f0"⟩
    , ⟨101000, "ba5948ef9fce38887df24c54366121437d336bd67a4332508248def0032c5d6e"⟩
    , ⟨111000, "bb9cc6e2d9da343774dc4b49be417731991b90ef53a7fa7eb669cce237223c37"⟩
    , ⟨121000, "1d286956120cf256bed13bcc1f5fe79a98347c80f2225ded92bbbdfc1147b5f5"⟩
    , ⟨136000, "b7c7416c40425bc7976c7b6b87734e2fb84855eecd30e3e9673caf8c7f599b5c"⟩
    , ⟨153000, "9f31abd27721e7eb2b58c0a61a117c324a3a6b8f45c82e8963b1bd14166f6510"⟩
    , ⟨161000, "f7a9069c705516f60878bf6da9bac02c12d0d8984cb90bce03fe34842ba7eb3d"⟩
    , ⟨170000, "827d5ce5ed69153deacab9a2d3c35a7b33cdaa397a6a4a540d538b765182f234"⟩
    , ⟨181000, "69fa48e8b9231f101df79c5b3174feb70bf6da11d88a4ce879a7c9ecb799f46d"⟩
    , ⟨191000, "80a9ea6b375312c376de880b6958459973a95be1dcbf28db1731452a59ef9750"⟩
    , ⟨200000, "003a4cb3bf206cfc23b9477e1c433280ae1b3393a21aa858aa322e8402204cd0"⟩
    , ⟨220000, "bed97c09983d1ee14d5f925c31dc4245b6c9d66af4fdadcf973465cb265b52c3"⟩
    , ⟨240000, "d4e782aae21f551d4a8d7756eb92dfa2cb23d1ede58162382b3bbced4fbee518"⟩
    , ⟨260000, "dfaef016341fab642190a6656b6c52efbdb43ce8a590bace86793f3c1b1276be"⟩
    , ⟨280000, "6b836125e431d3fd31ef55f5fbbdfdadc4d9b98b11db5ee0b7ac8f1f8c3ede32"⟩
    , ⟨301000, "c557d7363393148a630a3fda46ca380a202fe82fa594c5e57f88fbece755bb05"⟩
    , ⟨324000, "8f6cb33fd75e327eb1a1d90b13ba2124e077b4cc5240bc7ec8039aee8a345e85"⟩
    , ⟨347000, "f4bd9894306981ca4c20cdbf0bbd9e9832696701f5b3d3a840d026b893db7337"⟩
    , ⟨383000, "d902cf21480851c35844b0744ea72c1bc2d9318e87a7de63a5e3e3854331a39c"⟩
    , ⟨401000, "e43417eb3b583fd28dfbfb38c65763d990b4c370066ac615a08c4c5c3910ebc9"⟩
    , ⟨420000, "76e0de5adb117e12e85beb264c45e768e47d1720d72a49a24daab57493e07a04"⟩
    , ⟨440000, "bbc6051554e936d0a18adddb95064b16a001ce164d061fb399f26416ce7860f9"⟩
    , ⟨461000, "a60d67991b4963efee5b102c281755afde28803b9bc0b647f0cbc2120b35185b"⟩
    , ⟨480000, "d88e6f5e77a8cb4bcb883168f357a94db31203f1977a15d90b6f6d4c2edebbbb"⟩
    , ⟨500000, "a2989da9f8e785f7040c2e2dfc0177babbf736cfad9f2b401656fea4c3c7c9db"⟩
    , ⟨510000, "7646ee1a99843f1e303d85e14c58dbf2bd65b393b273b379de14534743111b72"⟩
    , ⟨520000, "114f6c2065ad5e668b901dd5ed5e9d302d6153f8e38381fbfd44485d7d499e10"⟩
    , ⟨540000, "d7480699ff87574bfad0038b8697f9bc4df5f0cba31058a637eefbc94e402761"⟩
    , ⟨600000, "85ac8dbbba7a870a45740677be5f35114cb3b70f56d1c93cc2aaf415629037e7"⟩
    , ⟨700000, "450af2f828cdfb29be40d644d39a0858b29fe05b556946db31a7c365cffed705"⟩
    , ⟨800001, "a6d915a25e905d1329e482aac91228b168de6e6efb3838df16c21c3ac3a82ea2"⟩
    , ⟨900000, "7854a46edbdc4311006a9fd27ae601bb1ebd22fc5e8d6f1757e15237080a545b"⟩
    , ⟨1000000, "ec070022a4fe9b450e02edd08c6ed355047bc8e65ef05e881b51c212d7c0fe95"⟩
    , ⟨1010001, "a2cb82b4ae04854108b18c502f1b33e18c6f69b9d4407e8aa205a23242cd4daf"⟩
    , ⟨1050000, "3369fa16394aa222736793fd3fd50d7f7a34d5b1ff67b344eaba269daab28a68"⟩
    , ⟨1060000, "44e3b2bfbfb9eef5ef34df447c9ea4c4912b8a3819c2c56dfd0dc02db8a84347"⟩
    , ⟨1100000, "4173031420285636eeecfab94e4e62e3a3cf6e144b97b2cc3622c683e09102f0"⟩
    , ⟨1394462, "ef308b7f477903acd8f300e6f0684c4888ce28c491fc32c1c469bfba6abf091b"⟩
    , ⟨1400000, "4bc57c3a57cc977db9f3bd6a095f51c0c7cc9c30fa8554505fa8f8e33d9f2b80"⟩
    , ⟨1410000, "7512574ec717d46a90b8c36fd923ef819fdc298b8e4be57be631519662f0db59"⟩
    , ⟨1573741, "6e4dacfd1684e71a178f29f3e9c714d264e6d385f64c31cdbe532b3204ce4e1d"⟩
    , ⟨1574000, "cef389868efd7785b977eb86527e8049a2a5ea472a6ed9bfc0741c6d6b39234b"⟩
    , ⟨1579000, "12cb8ae28107d99f4ba24465b9abf21f98fe855d9b09449cf5c8ed98120829c1"⟩
    , ⟨1589000, "479746c27e323e233e58af6024bb7b9727a26bc0114c26ff537469e6ada105e1"⟩
    , ⟨1600000, "f44cbdcb21fc7716947f763ccca5de5b02ffff7f14beafef0a7486067f6777fa"⟩
    , ⟨1650000, "70caabb0720c95f67a02eabfde27253eaa8698dc6ea5716631890876b9df421a"⟩
    , ⟨1700000, "691eb62d25a0961e81f1a8427b8c21e01ade5befe4a94be5826f49cfecc070a0"⟩
    , ⟨1750000, "8971f1790e58c6de0ea2854872c6ad03752b65567ab8e5c8458ae4a6eb9fb783"⟩
    , ⟨1766666, "ffb7d30ec4d20cae926af05252dc39dbc433b068a0807a8f0dfa63521caca6f0"⟩
    , ⟨1888888, "89530dba778db5a540aac6b7b8659cee8909ba445fa5a54ba3023e98e045692d"⟩
    , ⟨1892222, "685a23cfa75e4e084f32b6a4ae09b3113c9509d84ce0559813627d462df6db88"⟩
    , ⟨2227008, "23eb6ca0fc87c887485a1417364dae6c3ae5cc4801c6eef8fc2b6bb83cdf9013"⟩
    , ⟨2242222, "98b01e772f0ca3b3ac875857e4f3b6571f8f18b8b896d0cb2feefeca90b69583"⟩
    , ⟨2460000, "13dcc432b541f34539f0582ebad2ab045db399e58404385ee1e24b4713346a5b"⟩
    , ⟨2856666, "057391a103bca1b54331c53ac81b9e5f588a359ca6a3068a53103c33d0f0e7ef"⟩ ]
  RuleChangeActivationThreshold := 6048
  MinerConfirmationWindow := 8064
  Deployments := mkDeployments
    ⟨28, 1199145601, 1230767999⟩
    ⟨0, 1485561600, 1517356801⟩
    ⟨1, 1485561600, 1517356801⟩
  RelayNonStdTxs := false
  Bech32HRPSegwit := strN "eac"
  PubKeyHashAddrID := 0x30
  ScriptHashAddrID := 0x32
  PrivateKeyID := 0xB0
  WitnessPubKeyHashAddrID := 0x06
  WitnessScriptHashAddrID := 0x0A
  HDPrivateKeyID := [0x04, 0x88, 0xad, 0xe4]
  HDPublicKeyID := [0x04, 0x88, 0xb2, 0x1e]
  HDCoinType := 2

/-- RegressionNetParams defines the network parameters for the
regression test Earthcoin network. -/
def RegressionNetParams : Params where
  Name := "regtest"
  Net := wireTestNet
  DefaultPort := "18444"
  DNSSeeds := []
  PowLimit := regressionPowLimit
  PowLimitBits := 0x207fffff
  BIP0034Height := 100000000
  BIP0065Height := 1351
  BIP0066Height := 1251
  CoinbaseMaturity := 30
  SubsidyReductionInterval := 525600
  TargetTimespan := 1800000000000
  TargetTimePerBlock := 60000000000
  RetargetAdjustmentFactor := 16
  ReduceMinDifficulty := true
  MinDiffReductionTime := 1200000000000
  GenerateSupported := true
  Checkpoints := []
  RuleChangeActivationThreshold := 108
  MinerConfirmationWindow := 144
  Deployments := mkDeployments
    ⟨28, 0, 9223372036854775807⟩
    ⟨0, 0, 9223372036854775807⟩
    ⟨1, 0, 9223372036854775807⟩
  RelayNonStdTxs := true
  Bech32HRPSegwit := strN "reac"
  PubKeyHashAddrID := 0x6f
  ScriptHashAddrID := 0x3a
  PrivateKeyID := 0xef
  WitnessPubKeyHashAddrID := 0
  WitnessScriptHashAddrID := 0
  HDPrivateKeyID := [0x04, 0x35, 0x83, 0x94]
  HDPublicKeyID := [0x04, 0x35, 0x87, 0xcf]
  HDCoinType := 1

/-- TestNet4Params defines the network parameters for the test Earthcoin
network (version 4). -/
def TestNet4Params : Params where
  Name := "testnet4"
  Net := wireTestNet4
  DefaultPort := "25677"
  DNSSeeds := []
  PowLimit := testNet4PowLimit
  PowLimitBits := 504365055
  BIP0034Height := 76
  BIP0065Height := 76
  BIP0066Height := 76
  CoinbaseMaturity := 30
  SubsidyReductionInterval := 525600
  TargetTimespan := 1800000000000
  TargetTimePerBlock := 60000000000
  RetargetAdjustmentFactor := 16
  ReduceMinDifficulty := true
  MinDiffReductionTime := 300000000000
  GenerateSupported := false
  Checkpoints :=
    [ ⟨0, "14b1da80b3d734d36a4a2be97ed2c9d49e79c47213d5bcc15b475a1115d28918"⟩ ]
  RuleChangeActivationThreshold := 1512
  MinerConfirmationWindow := 2016
  Deployments := mkDeployments
    ⟨28, 1199145601, 1230767999⟩
    ⟨0, 1483228800, 1517356801⟩
    ⟨1, 1483228800, 1517356801⟩
  RelayNonStdTxs := true
  Bech32HRPSegwit := strN "teac"
  PubKeyHashAddrID := 0x6f
  ScriptHashAddrID := 0x3a
  PrivateKeyID := 0xef
  WitnessPubKeyHashAddrID := 0x52
  WitnessScriptHashAddrID := 0x31
  HDPrivateKeyID := [0x04, 0x35, 0x83, 0x94]
  HDPublicKeyID := [0x04, 0x35, 0x87, 0xcf]
  HDCoinType := 1

/-- SimNetParams defines the network parameters for the simulation test
Earthcoin network. -/
def SimNetParams : Params where
  Name := "simnet"
  Net := wireSimNet
  DefaultPort := "18555"
  DNSSeeds := []
  PowLimit := simNetPowLimit
  PowLimitBits := 0x207fffff
  BIP0034Height := 0
  BIP0065Height := 0
  BIP0066Height := 0
  CoinbaseMaturity := 30
  SubsidyReductionInterval := 210000
  TargetTimespan := 1209600000000000
  TargetTimePerBlock := 600000000000
  RetargetAdjustmentFactor := 16
  ReduceMinDifficulty := true
  MinDiffReductionTime := 1200000000000
  GenerateSupported := true
  Checkpoints := []
  RuleChangeActivationThreshold := 75
  MinerConfirmationWindow := 100
  Deployments := mkDeployments
    ⟨28, 0, 9223372036854775807⟩
    ⟨0, 0, 9223372036854775807⟩
    ⟨1, 0, 9223372036854775807⟩
  RelayNonStdTxs := true
  Bech32HRPSegwit := strN "seac"
  PubKeyHashAddrID := 0x3f
  ScriptHashAddrID := 0x7b
  PrivateKeyID := 0x64
  WitnessPubKeyHashAddrID := 0x19
  WitnessScriptHashAddrID := 0x28
  HDPrivateKeyID := [0x04, 0x20, 0xb9, 0x00]
  HDPublicKeyID := [0x04, 0x20, 0xbd, 0x3a]
  HDCoinType := 115

/-- Errors of the chaincfg package: `ErrDuplicateNet` for an already
registered network magic, `ErrUnknownHDKeyID` for an unrecognised HD
private extended key id. -/
inductive RegError where
  | ErrDuplicateNet
  | ErrUnknownHDKeyID
deriving DecidableEq, Repr

/-- Insertion into a Go `map[K]struct\x7b\x7d` used as a set: a no-op when
the key is already present. -/
def setInsert {α : Type} [DecidableEq α] (x : α) (s : List α) : List α :=
  if x ∈ s then s else x :: s

/-- Lookup in a Go map modelled as an association list. -/
def mapFind (k : List Nat) : List (List Nat × List Nat) → Option (List Nat)
  | [] => none
  | e :: m => if e.1 = k then some e.2 else mapFind k m

/-- Insertion into a Go map modelled as an association list: overwrites
the value when the key is already present. -/
def mapInsert (k v : List Nat) :
    List (List Nat × List Nat) → List (List Nat × List Nat)
  | [] => [(k, v)]
  | e :: m => if e.1 = k then (k, v) :: m else e :: mapInsert k v m

/-- The package-level mutable registry state: the set of registered
network magics and the four derived cross-network indices. -/
structure Registry where
  registeredNets : List Nat
  pubKeyHashAddrIDs : List Nat
  scriptHashAddrIDs : List Nat
  bech32SegwitPrefixes : List (List Nat)
  hdPrivToPubKeyIDs : List (List Nat × List Nat)
deriving DecidableEq, Repr

/-- The initial registry state: all five package-level maps start
empty. -/
def emptyRegistry : Registry := ⟨[], [], [], [], []⟩

/-- Register registers the network parameters for an Earthcoin network.
It errors with `ErrDuplicateNet` if the network is already registered,
leaving the state untouched; on success it inserts the magic and unions
the profile's data into the four derived indices. -/
def Register (r : Registry) (p : Params) : Option RegError × Registry :=
  if p.Net ∈ r.registeredNets then
    (some RegError.ErrDuplicateNet, r)
  else
    (none,
      { registeredNets := setInsert p.Net r.registeredNets
        pubKeyHashAddrIDs := setInsert p.PubKeyHashAddrID r.pubKeyHashAddrIDs
        scriptHashAddrIDs := setInsert p.ScriptHashAddrID r.scriptHashAddrIDs
        hdPrivToPubKeyIDs :=
          mapInsert p.HDPrivateKeyID p.HDPublicKeyID r.hdPrivToPubKeyIDs
        bech32SegwitPrefixes :=
          setInsert (p.Bech32HRPSegwit ++ strN "1") r.bech32SegwitPrefixes })

/-- mustRegister performs the same function as Register except it panics
(modelled as `none`) if there is an error. -/
def mustRegister (r : Registry) (p : Params) : Option Registry :=
  match Register r p with
  | (none, r') => some r'
  | (some _, _) => none

/-- The package `init` function: registers all four default networks, in
order, when the package is initialized.  A `mustRegister` panic surfaces
as `none`. -/
def initRegistry : Option Registry :=
  (mustRegister emptyRegistry MainNetParams).bind fun r1 =>
  (mustRegister r1 TestNet4Params).bind fun r2 =>
  (mustRegister r2 RegressionNetParams).bind fun r3 =>
  mustRegister r3 SimNetParams

/-- IsPubKeyHashAddrID returns whether the id is an identifier known to
prefix a pay-to-pubkey-hash address on any default or registered
network. -/
def IsPubKeyHashAddrID (r : Registry) (id : Nat) : Bool :=
  decide (id ∈ r.pubKeyHashAddrIDs)

/-- IsScriptHashAddrID returns whether the id is an identifier known to
prefix a pay-to-script-hash address on any default or registered
network. -/
def IsScriptHashAddrID (r : Registry) (id : Nat) : Bool :=
  decide (id ∈ r.scriptHashAddrIDs)

/-- IsBech32SegwitPrefix returns whether the prefix string is a known
prefix for segwit addresses on any default or registered network: the
argument is folded to lower case and then tested for membership in the
stored `hrp + "1"` strings. -/
def IsBech32SegwitPrefix (r : Registry) (pre : List Nat) : Bool :=
  decide (stringsToLower pre ∈ r.bech32SegwitPrefixes)

/-- HDPrivateKeyToPublicKeyID accepts a private hierarchical
deterministic extended key id and returns the associated public key id,
or `ErrUnknownHDKeyID` when the id is not exactly 4 bytes or is not
registered. -/
def HDPrivateKeyToPublicKeyID (r : Registry) (id : List Nat) :
    Except RegError (List Nat) :=
  if id.length ≠ 4 then
    Except.error RegError.ErrUnknownHDKeyID
  else
    match mapFind id r.hdPrivToPubKeyIDs with
    | some pubBytes => Except.ok pubBytes
    | none => Except.error RegError.ErrUnknownHDKeyID

/-- Modelled from the spec: the standard compact difficulty ("bits")
decoding — "a 4-byte floating-point-like encoding of a 256-bit
proof-of-work target" (spec glossary).  The decoder itself lives in the
repository's blockchain difficulty code, which is absent from src: the
low 23 bits are the mantissa, bit 23 the sign, and the top byte the
base-256 exponent applied around a 3-byte radix point. -/
def compactToBig (compact : Nat) : Int :=
  let mantissa := compact &&& 0x007fffff
  let exponent := compact >>> 24
  let bn : Nat :=
    if exponent ≤ 3 then mantissa >>> (8 * (3 - exponent))
    else mantissa <<< (8 * (exponent - 3))
  if compact &&& 0x00800000 ≠ 0 then -(bn : Int) else (bn : Int)

/-- Runs a sequence of `Register` calls from a starting state, keeping
the final state (the mutable package state after the calls). -/
def registerAll : Registry → List Params → Registry
  | r, [] => r
  | r, p :: ps => registerAll (Register r p).2 ps

/-- The profiles of a `Register` call sequence whose registration
succeeded (the "registered Profiles" of the spec). -/
def successfulRegs : Registry → List Params → List Params
  | _, [] => []
  | r, p :: ps =>
    if (Register r p).1 = none then p :: successfulRegs (Register r p).2 ps
    else successfulRegs (Register r p).2 ps

/-- Decidable equality of `Except` results, used to evaluate the HD
lookup on concrete inputs. -/
instance {ε α : Type} [DecidableEq ε] [DecidableEq α] :
    DecidableEq (Except ε α) := fun a b =>
  match a, b with
  | Except.error e, Except.error f =>
    if h : e = f then isTrue (by rw [h]) else
      isFalse (fun hc => h (Except.error.inj hc))
  | Except.error _, Except.ok _ => isFalse (fun hc => Except.noConfusion hc)
  | Except.ok _, Except.error _ => isFalse (fun hc => Except.noConfusion hc)
  | Except.ok x, Except.ok y =>
    if h : x = y then isTrue (by rw [h]) else
      isFalse (fun hc => h (Except.ok.inj hc))

/-- A caller-defined custom network profile, following the spec's §8
scenario: magic 0xAABBCCDD, `PubKeyHashAddrID = 0x1F`, HD-private prefix
01020304 mapped to HD-public 05060708, HRP "xyz". -/
def cexProfileA : Params where
  Name := "customA"
  Net := 0xAABBCCDD
  DefaultPort := ""
  DNSSeeds := []
  PowLimit := 0
  PowLimitBits := 0
  BIP0034Height := 0
  BIP0065Height := 0
  BIP0066Height := 0
  CoinbaseMaturity := 0
  SubsidyReductionInterval := 0
  TargetTimespan := 0
  TargetTimePerBlock := 0
  RetargetAdjustmentFactor := 0
  ReduceMinDifficulty := false
  MinDiffReductionTime := 0
  GenerateSupported := false
  Checkpoints := []
  RuleChangeActivationThreshold := 0
  MinerConfirmationWindow := 0
  Deployments := mkDeployments ⟨0, 0, 0⟩ ⟨0, 0, 0⟩ ⟨0, 0, 0⟩
  RelayNonStdTxs := false
  Bech32HRPSegwit := strN "xyz"
  PubKeyHashAddrID := 0x1F
  ScriptHashAddrID := 0x20
  PrivateKeyID := 0
  WitnessPubKeyHashAddrID := 0
  WitnessScriptHashAddrID := 0
  HDPrivateKeyID := [0x01, 0x02, 0x03, 0x04]
  HDPublicKeyID := [0x05, 0x06, 0x07, 0x08]
  HDCoinType := 0

/-- A second custom profile with a fresh magic but the same HD-private
prefix as `cexProfileA`, mapped to a different HD-public prefix. -/
def cexProfileB : Params :=
  { cexProfileA with
      Name := "customB"
      Net := 0xAABBCCDE
      HDPublicKeyID := [0x09, 0x09, 0x09, 0x09] }

/-- A custom profile whose bech32 human-readable part contains
uppercase letters. -/
def upperHrpParams : Params :=
  { cexProfileA with
      Name := "upperhrp"
      Net := 0x0BADF00D
      Bech32HRPSegwit := strN "EAC" }

/-- Membership in a set after a Go set-map insertion. -/
theorem mem_setInsert {α : Type} [DecidableEq α] {a x : α} {s : List α} :
    a ∈ setInsert x s ↔ a = x ∨ a ∈ s := by
  unfold setInsert
  by_cases hx : x ∈ s
  · rw [if_pos hx]
    constructor
    · intro ha
      exact Or.inr ha
    · intro ha
      cases ha with
      | inl h => rw [h]; exact hx
      | inr h => exact h
  · rw [if_neg hx]
    exact List.mem_cons

/-- Looking up the key just inserted returns the new value (overwrite
semantics of the Go map). -/
theorem mapFind_mapInsert_self (k v : List Nat)
    (m : List (List Nat × List Nat)) :
    mapFind k (mapInsert k v m) = some v := by
  induction m with
  | nil => simp [mapInsert, mapFind]
  | cons e m ih =>
    by_cases he : e.1 = k
    · simp [mapInsert, he, mapFind]
    · simp [mapInsert, he, mapFind, ih]

/-- Looking up a different key is unaffected by a map insertion. -/
theorem mapFind_mapInsert_ne {k kp vp : List Nat} (h : kp ≠ k)
    (m : List (List Nat × List Nat)) :
    mapFind k (mapInsert kp vp m) = mapFind k m := by
  induction m with
  | nil => simp [mapInsert, mapFind, h]
  | cons e m ih =>
    by_cases he : e.1 = kp
    · simp [mapInsert, he, mapFind, h]
    · simp [mapInsert, he, mapFind, ih]

/-- A lookup misses after an insertion exactly when it missed before and
the inserted key differs. -/
theorem mapFind_mapInsert_none {k kp vp : List Nat}
    {m : List (List Nat × List Nat)} :
    mapFind k (mapInsert kp vp m) = none ↔
      kp ≠ k ∧ mapFind k m = none := by
  by_cases hk : kp = k
  · subst hk
    simp [mapFind_mapInsert_self]
  · rw [mapFind_mapInsert_ne hk]
    simp [hk]

/-- After a run of registrations, the HD index misses a key exactly when
the starting state missed it and no successfully registered profile
carries it. -/
theorem mapFind_registerAll_none (ps : List Params) (r : Registry)
    (k : List Nat) :
    mapFind k (registerAll r ps).hdPrivToPubKeyIDs = none ↔
      mapFind k r.hdPrivToPubKeyIDs = none ∧
        ∀ p ∈ successfulRegs r ps, p.HDPrivateKeyID ≠ k := by
  induction ps generalizing r with
  | nil => simp [registerAll, successfulRegs]
  | cons p ps ih =>
    by_cases hn : p.Net ∈ r.registeredNets
    · have hreg : Register r p = (some RegError.ErrDuplicateNet, r) := by
        simp [Register, hn]
      simp only [registerAll, successfulRegs, hreg]
      simp [ih]
    · have h1 : (Register r p).1 = none := by simp [Register, hn]
      have h2 : (Register r p).2.hdPrivToPubKeyIDs
          = mapInsert p.HDPrivateKeyID p.HDPublicKeyID r.hdPrivToPubKeyIDs := by
        simp [Register, hn]
      have hsr : successfulRegs r (p :: ps)
          = p :: successfulRegs (Register r p).2 ps := by
        simp [successfulRegs, h1]
      have hra : registerAll r (p :: ps) = registerAll (Register r p).2 ps := by
        simp [registerAll]
      rw [hra, ih, h2, mapFind_mapInsert_none, hsr]
      simp only [List.forall_mem_cons]
      tauto

/-- A value found in the HD index after a run of registrations either
was there at the start or was written by some successfully registered
profile. -/
theorem mapFind_registerAll_some (ps : List Params) (r : Registry)
    (k v : List Nat)
    (h : mapFind k (registerAll r ps).hdPrivToPubKeyIDs = some v) :
    mapFind k r.hdPrivToPubKeyIDs = some v ∨
      ∃ q ∈ successfulRegs r ps,
        q.HDPrivateKeyID = k ∧ q.HDPublicKeyID = v := by
  induction ps generalizing r with
  | nil =>
    simp only [registerAll] at h
    exact Or.inl h
  | cons p ps ih =>
    by_cases hn : p.Net ∈ r.registeredNets
    · have hreg : Register r p = (some RegError.ErrDuplicateNet, r) := by
        simp [Register, hn]
      have hra : registerAll r (p :: ps) = registerAll r ps := by
        simp [registerAll, hreg]
      have hsr : successfulRegs r (p :: ps) = successfulRegs r ps := by
        simp [successfulRegs, hreg]
      rw [hra] at h
      rw [hsr]
      exact ih r h
    · have h1 : (Register r p).1 = none := by simp [Register, hn]
      have h2 : (Register r p).2.hdPrivToPubKeyIDs
          = mapInsert p.HDPrivateKeyID p.HDPublicKeyID r.hdPrivToPubKeyIDs := by
        simp [Register, hn]
      have hsr : successfulRegs r (p :: ps)
          = p :: successfulRegs (Register r p).2 ps := by
        simp [successfulRegs, h1]
      have hra : registerAll r (p :: ps) = registerAll (Register r p).2 ps := by
        simp [registerAll]
      rw [hra] at h
      rcases ih _ h with hbase | ⟨q, hq, hk, hv⟩
      · rw [h2] at hbase
        by_cases hkp : p.HDPrivateKeyID = k
        · right
          refine ⟨p, ?_, hkp, ?_⟩
          · rw [hsr]
            exact List.mem_cons_self p _
          · rw [hkp, mapFind_mapInsert_self] at hbase
            exact Option.some.inj hbase
        · rw [mapFind_mapInsert_ne hkp] at hbase
          exact Or.inl hbase
      · right
        refine ⟨q, ?_, hk, hv⟩
        rw [hsr]
        exact List.mem_cons_of_mem p hq

/-- C1: for any Profile whose network magic is not yet registered,
`Register` succeeds; a second `Register` with the same magic returns
`ErrDuplicateNet` and leaves the registry state (all five indices)
exactly as it was after the first call. -/
theorem register_twice_duplicate (r : Registry) (p : Params)
    (h : p.Net ∉ r.registeredNets) :
    (Register r p).1 = none ∧
    (Register (Register r p).2 p).1 = some RegError.ErrDuplicateNet ∧
    (Register (Register r p).2 p).2 = (Register r p).2 := by
  have hmem : p.Net ∈ setInsert p.Net r.registeredNets :=
    mem_setInsert.mpr (Or.inl rfl)
  refine ⟨by simp [Register, h], ?_, ?_⟩ <;>
    simp [Register, h, hmem]

/-- Witness for C1 at the main-network profile and the empty registry. -/
theorem register_twice_duplicate_witness :
    MainNetParams.Net ∉ emptyRegistry.registeredNets ∧
    ((Register emptyRegistry MainNetParams).1 = none ∧
      (Register (Register emptyRegistry MainNetParams).2 MainNetParams).1
        = some RegError.ErrDuplicateNet ∧
      (Register (Register emptyRegistry MainNetParams).2 MainNetParams).2
        = (Register emptyRegistry MainNetParams).2) :=
  ⟨by decide, register_twice_duplicate emptyRegistry MainNetParams (by decide)⟩

/-- C5: immediately after a successful `Register` of a profile, both its
pubkey-hash and its script-hash address ID are members of the
cross-network address-ID indices. -/
theorem register_address_id_soundness (r : Registry) (p : Params)
    (h : (Register r p).1 = none) :
    IsPubKeyHashAddrID (Register r p).2 p.PubKeyHashAddrID = true ∧
    IsScriptHashAddrID (Register r p).2 p.ScriptHashAddrID = true := by
  by_cases hn : p.Net ∈ r.registeredNets
  · simp [Register, hn] at h
  · simp [Register, hn, IsPubKeyHashAddrID, IsScriptHashAddrID, mem_setInsert]

/-- Witness for C5 at the simulation-network profile and the empty
registry. -/
theorem register_address_id_soundness_witness :
    (Register emptyRegistry SimNetParams).1 = none ∧
    (IsPubKeyHashAddrID (Register emptyRegistry SimNetParams).2
        SimNetParams.PubKeyHashAddrID = true ∧
      IsScriptHashAddrID (Register emptyRegistry SimNetParams).2
        SimNetParams.ScriptHashAddrID = true) :=
  ⟨by decide, register_address_id_soundness emptyRegistry SimNetParams (by decide)⟩

/-- C9: the duplicate check of `Register` inspects only the network
magic — a second profile sharing the first one's HD-private prefix (or
any other non-magic parameter) but carrying a fresh magic registers
successfully, and its registration overwrites the HD private-to-public
mapping, which thereafter returns the later profile's HD-public
prefix. -/
theorem register_checks_only_magic (r : Registry) (p q : Params)
    (hp : p.Net ∉ r.registeredNets) (hq : q.Net ∉ r.registeredNets)
    (hne : q.Net ≠ p.Net) (hshare : q.HDPrivateKeyID = p.HDPrivateKeyID)
    (h4 : p.HDPrivateKeyID.length = 4) :
    (Register r p).1 = none ∧
    (Register (Register r p).2 q).1 = none ∧
    HDPrivateKeyToPublicKeyID (Register (Register r p).2 q).2 p.HDPrivateKeyID
      = Except.ok q.HDPublicKeyID := by
  have hq2 : q.Net ∉ setInsert p.Net r.registeredNets := by
    intro hmem'
    rcases mem_setInsert.mp hmem' with hh | hh
    · exact hne hh
    · exact hq hh
  have hhd : (Register (Register r p).2 q).2.hdPrivToPubKeyIDs
      = mapInsert q.HDPrivateKeyID q.HDPublicKeyID
          (mapInsert p.HDPrivateKeyID p.HDPublicKeyID r.hdPrivToPubKeyIDs) := by
    simp [Register, hp, hq2]
  refine ⟨by simp [Register, hp], by simp [Register, hp, hq2], ?_⟩
  rw [HDPrivateKeyToPublicKeyID, if_neg (by omega), hhd, hshare,
    mapFind_mapInsert_self]

/-- Witness for C9: the built-in test-v4 and regression-test profiles
really do share the HD-private prefix 04358394 with distinct magics. -/
theorem register_checks_only_magic_witness :
    (TestNet4Params.Net ∉ emptyRegistry.registeredNets ∧
      RegressionNetParams.Net ∉ emptyRegistry.registeredNets ∧
      RegressionNetParams.Net ≠ TestNet4Params.Net ∧
      RegressionNetParams.HDPrivateKeyID = TestNet4Params.HDPrivateKeyID ∧
      TestNet4Params.HDPrivateKeyID.length = 4) ∧
    ((Register emptyRegistry TestNet4Params).1 = none ∧
      (Register (Register emptyRegistry TestNet4Params).2
          RegressionNetParams).1 = none ∧
      HDPrivateKeyToPublicKeyID
          (Register (Register emptyRegistry TestNet4Params).2
            RegressionNetParams).2 TestNet4Params.HDPrivateKeyID
        = Except.ok RegressionNetParams.HDPublicKeyID) :=
  ⟨⟨by decide, by decide, by decide, by decide, by decide⟩,
    register_checks_only_magic emptyRegistry TestNet4Params
      RegressionNetParams (by decide) (by decide) (by decide) (by decide)
      (by decide)⟩

/-- C4: after a profile with HRP "eac" is registered, the bech32 prefix
query accepts "eac1", "EAC1" and "Eac1", and rejects "eac" (missing
trailing separator): the query lower-cases its argument and tests
membership of the stored hrp+"1" strings. -/
theorem bech32_case_insensitivity (r : Registry) (p : Params)
    (hn : p.Net ∉ r.registeredNets)
    (hhrp : p.Bech32HRPSegwit = strN "eac")
    (hmiss : strN "eac" ∉ r.bech32SegwitPrefixes) :
    IsBech32SegwitPrefix (Register r p).2 (strN "eac1") = true ∧
    IsBech32SegwitPrefix (Register r p).2 (strN "EAC1") = true ∧
    IsBech32SegwitPrefix (Register r p).2 (strN "Eac1") = true ∧
    IsBech32SegwitPrefix (Register r p).2 (strN "eac") = false := by
  have happ : strN "eac" ++ strN "1" = strN "eac1" := by decide
  have hpre : (Register r p).2.bech32SegwitPrefixes
      = setInsert (strN "eac1") r.bech32SegwitPrefixes := by
    simp [Register, hn, hhrp, happ]
  have hl1 : stringsToLower (strN "eac1") = strN "eac1" := by decide
  have hl2 : stringsToLower (strN "EAC1") = strN "eac1" := by decide
  have hl3 : stringsToLower (strN "Eac1") = strN "eac1" := by decide
  have hl4 : stringsToLower (strN "eac") = strN "eac" := by decide
  have hne : strN "eac" ≠ strN "eac1" := by decide
  refine ⟨?_, ?_, ?_, ?_⟩ <;>
    simp [IsBech32SegwitPrefix, hpre, hl1, hl2, hl3, hl4, mem_setInsert,
      hne, hmiss]

/-- Witness for C4 at the main-network profile (whose HRP is "eac") and
the empty registry. -/
theorem bech32_case_insensitivity_witness :
    (MainNetParams.Net ∉ emptyRegistry.registeredNets ∧
      MainNetParams.Bech32HRPSegwit = strN "eac" ∧
      strN "eac" ∉ emptyRegistry.bech32SegwitPrefixes) ∧
    (IsBech32SegwitPrefix (Register emptyRegistry MainNetParams).2
        (strN "eac1") = true ∧
      IsBech32SegwitPrefix (Register emptyRegistry MainNetParams).2
        (strN "EAC1") = true ∧
      IsBech32SegwitPrefix (Register emptyRegistry MainNetParams).2
        (strN "Eac1") = true ∧
      IsBech32SegwitPrefix (Register emptyRegistry MainNetParams).2
        (strN "eac") = false) :=
  ⟨⟨by decide, by decide, by decide⟩,
    bech32_case_insensitivity emptyRegistry MainNetParams (by decide)
      (by decide) (by decide)⟩

/-- Lower-casing never produces a string that contains an uppercase
ASCII letter. -/
theorem stringsToLower_ne {l : List Nat}
    (h : ∃ c ∈ l, 65 ≤ c ∧ c ≤ 90) (s : List Nat) :
    stringsToLower s ≠ l := by
  intro heq
  rcases h with ⟨c, hc, h65, h90⟩
  rw [← heq] at hc
  unfold stringsToLower at hc
  rcases List.mem_map.mp hc with ⟨a, _, hfa⟩
  by_cases ha : 65 ≤ a ∧ a ≤ 90
  · rw [if_pos ha] at hfa
    omega
  · rw [if_neg ha] at hfa
    omega

/-- C10: registration stores `hrp + "1"` without case folding while the
lookup lower-cases its input, so when the HRP contains an uppercase
letter no casing of the stored prefix — the stored string itself
included — is ever accepted. -/
theorem bech32_uppercase_unreachable (r : Registry) (p : Params)
    (s : List Nat)
    (hn : p.Net ∉ r.registeredNets)
    (hup : ∃ c ∈ p.Bech32HRPSegwit, 65 ≤ c ∧ c ≤ 90)
    (_hcase : stringsToLower s
      = stringsToLower (p.Bech32HRPSegwit ++ strN "1"))
    (hmiss : stringsToLower s ∉ r.bech32SegwitPrefixes) :
    IsBech32SegwitPrefix (Register r p).2 s = false := by
  have hupstore : ∃ c ∈ p.Bech32HRPSegwit ++ strN "1", 65 ≤ c ∧ c ≤ 90 := by
    rcases hup with ⟨c, hc, hcu⟩
    exact ⟨c, List.mem_append_left _ hc, hcu⟩
  have hne := stringsToLower_ne hupstore s
  have hpre : (Register r p).2.bech32SegwitPrefixes
      = setInsert (p.Bech32HRPSegwit ++ strN "1") r.bech32SegwitPrefixes := by
    simp [Register, hn]
  simp [IsBech32SegwitPrefix, hpre, mem_setInsert, hne, hmiss]

/-- Witness for C10 at a custom profile with HRP "EAC", querying the
exact stored prefix "EAC1". -/
theorem bech32_uppercase_unreachable_witness :
    (upperHrpParams.Net ∉ emptyRegistry.registeredNets ∧
      (∃ c ∈ upperHrpParams.Bech32HRPSegwit, 65 ≤ c ∧ c ≤ 90) ∧
      stringsToLower (strN "EAC1")
        = stringsToLower (upperHrpParams.Bech32HRPSegwit ++ strN "1") ∧
      stringsToLower (strN "EAC1") ∉ emptyRegistry.bech32SegwitPrefixes) ∧
    IsBech32SegwitPrefix (Register emptyRegistry upperHrpParams).2
      (strN "EAC1") = false :=
  ⟨⟨by decide, by decide, by decide, by decide⟩,
    bech32_uppercase_unreachable emptyRegistry upperHrpParams
      (strN "EAC1") (by decide) (by decide) (by decide) (by decide)⟩

/-- Counterexample to C2: after registering two profiles that share the
HD-private prefix 01020304 under distinct magics, the first profile is
registered, yet the HD lookup of its prefix returns the second profile's
HD-public prefix, not its own. -/
theorem hd_roundtrip_counterexample :
    (Register emptyRegistry cexProfileA).1 = none ∧
    (Register (Register emptyRegistry cexProfileA).2 cexProfileB).1 = none ∧
    HDPrivateKeyToPublicKeyID
        (Register (Register emptyRegistry cexProfileA).2 cexProfileB).2
        cexProfileA.HDPrivateKeyID
      = Except.ok cexProfileB.HDPublicKeyID ∧
    cexProfileB.HDPublicKeyID ≠ cexProfileA.HDPublicKeyID := by
  decide

/-- C2 (amended): over any registration run from the empty registry,
`HDPrivateKeyToPublicKeyID` fails with `ErrUnknownHDKeyID` exactly when
the input is not 4 bytes long or equals no successfully registered
profile's HD-private prefix; and the round-trip for a registered profile
returns its own HD-public prefix provided every registered profile
sharing its HD-private prefix maps it to the same HD-public prefix (a
later registration with the same prefix overwrites the mapping). -/
theorem hd_private_to_public_amended (ps : List Params) (id : List Nat)
    (p : Params)
    (hp : p ∈ successfulRegs emptyRegistry ps)
    (hagree : ∀ q ∈ successfulRegs emptyRegistry ps,
      q.HDPrivateKeyID = p.HDPrivateKeyID →
        q.HDPublicKeyID = p.HDPublicKeyID)
    (h4 : p.HDPrivateKeyID.length = 4) :
    (HDPrivateKeyToPublicKeyID (registerAll emptyRegistry ps) id
        = Except.error RegError.ErrUnknownHDKeyID ↔
      id.length ≠ 4 ∨
        ∀ q ∈ successfulRegs emptyRegistry ps, q.HDPrivateKeyID ≠ id) ∧
    HDPrivateKeyToPublicKeyID (registerAll emptyRegistry ps)
        p.HDPrivateKeyID
      = Except.ok p.HDPublicKeyID := by
  have hbase : ∀ k : List Nat, mapFind k emptyRegistry.hdPrivToPubKeyIDs
      = none := by
    intro k
    simp [emptyRegistry, mapFind]
  constructor
  · by_cases hlen : id.length = 4
    · have hiff := mapFind_registerAll_none ps emptyRegistry id
      rw [hbase id] at hiff
      simp only [true_and] at hiff
      rw [HDPrivateKeyToPublicKeyID, if_neg (by omega)]
      cases hfind : mapFind id (registerAll emptyRegistry ps).hdPrivToPubKeyIDs with
      | some w =>
        simp only [hfind]
        constructor
        · intro hcontr
          exact Except.noConfusion hcontr
        · intro hrhs
          rcases hrhs with hbad | hall
          · omega
          · have := hiff.mpr hall
            rw [hfind] at this
            exact Option.noConfusion this
      | none =>
        have hall := hiff.mp hfind
        simp only [hfind]
        constructor
        · intro _
          exact Or.inr hall
        · intro _
          trivial
    · rw [HDPrivateKeyToPublicKeyID, if_pos hlen]
      simp [hlen]
  · cases hfind : mapFind p.HDPrivateKeyID
        (registerAll emptyRegistry ps).hdPrivToPubKeyIDs with
    | none =>
      have hiff := mapFind_registerAll_none ps emptyRegistry p.HDPrivateKeyID
      rw [hbase p.HDPrivateKeyID] at hiff
      simp only [true_and] at hiff
      exact absurd rfl (hiff.mp hfind p hp)
    | some w =>
      rcases mapFind_registerAll_some ps emptyRegistry _ _ hfind with
        hb | ⟨q, hq, hk, hv⟩
      · rw [hbase p.HDPrivateKeyID] at hb
        exact Option.noConfusion hb
      · have hqp : q.HDPublicKeyID = p.HDPublicKeyID := hagree q hq hk
        rw [HDPrivateKeyToPublicKeyID, if_neg (by omega), hfind, ← hv, hqp]

/-- Witness for C2 (amended): a single registration of the main-network
profile, queried at the unregistered 4-byte id 00000000. -/
theorem hd_private_to_public_amended_witness :
    (MainNetParams ∈ successfulRegs emptyRegistry [MainNetParams] ∧
      (∀ q ∈ successfulRegs emptyRegistry [MainNetParams],
        q.HDPrivateKeyID = MainNetParams.HDPrivateKeyID →
          q.HDPublicKeyID = MainNetParams.HDPublicKeyID) ∧
      MainNetParams.HDPrivateKeyID.length = 4) ∧
    ((HDPrivateKeyToPublicKeyID (registerAll emptyRegistry [MainNetParams])
        [0, 0, 0, 0] = Except.error RegError.ErrUnknownHDKeyID ↔
      ([0, 0, 0, 0] : List Nat).length ≠ 4 ∨
        ∀ q ∈ successfulRegs emptyRegistry [MainNetParams],
          q.HDPrivateKeyID ≠ [0, 0, 0, 0]) ∧
      HDPrivateKeyToPublicKeyID (registerAll emptyRegistry [MainNetParams])
          MainNetParams.HDPrivateKeyID
        = Except.ok MainNetParams.HDPublicKeyID) :=
  ⟨⟨by simp [successfulRegs, Register, emptyRegistry],
      by simp [successfulRegs, Register, emptyRegistry],
      by decide⟩,
    hd_private_to_public_amended [MainNetParams] [0, 0, 0, 0] MainNetParams
      (by simp [successfulRegs, Register, emptyRegistry])
      (by simp [successfulRegs, Register, emptyRegistry]) (by decide)⟩

/-- Counterexample to C3: for the regression-test profile the compact
bits 0x207fffff decode to a value different from its `PowLimit`. -/
theorem powlimit_bits_counterexample :
    compactToBig RegressionNetParams.PowLimitBits
      ≠ (RegressionNetParams.PowLimit : Int) := by
  decide

/-- C3 (amended): the compact bits of the main and test-v4 profiles
decode to exactly their `PowLimit`; for the regression-test and
simulation profiles the bits 0x207fffff decode to 2^255 - 2^232, which
differs from their `PowLimit` of 2^255 - 1. -/
theorem powlimit_bits_amended :
    compactToBig MainNetParams.PowLimitBits
      = (MainNetParams.PowLimit : Int) ∧
    compactToBig TestNet4Params.PowLimitBits
      = (TestNet4Params.PowLimit : Int) ∧
    compactToBig RegressionNetParams.PowLimitBits
      = ((2 ^ 255 - 2 ^ 232 : Nat) : Int) ∧
    compactToBig SimNetParams.PowLimitBits
      = ((2 ^ 255 - 2 ^ 232 : Nat) : Int) ∧
    (RegressionNetParams.PowLimit : Int)
      ≠ ((2 ^ 255 - 2 ^ 232 : Nat) : Int) ∧
    (SimNetParams.PowLimit : Int) ≠ ((2 ^ 255 - 2 ^ 232 : Nat) : Int) := by
  decide

/-- C6: the package bootstrap registers the four built-in profiles in
the fixed order main, test-v4, regression-test, simulation-test; all
four `mustRegister` calls succeed, and the resulting registered-magic
set holds exactly the four built-in network magics. -/
theorem bootstrap_registers_four :
    ∃ r, initRegistry = some r ∧
      ∀ m, m ∈ r.registeredNets ↔
        (m = wireMainNet ∨ m = wireTestNet4 ∨ m = wireTestNet ∨
          m = wireSimNet) := by
  have hA : initRegistry.map Registry.registeredNets
      = some [wireSimNet, wireTestNet, wireTestNet4, wireMainNet] := by
    decide
  cases hinit : initRegistry with
  | none => rw [hinit] at hA; exact Option.noConfusion hA
  | some r =>
    refine ⟨r, rfl, ?_⟩
    rw [hinit] at hA
    simp only [Option.map_some', Option.some.injEq] at hA
    intro m
    rw [hA]
    simp only [List.mem_cons, List.not_mem_nil, or_false]
    tauto

/-- C7: for every built-in profile the checkpoint heights form a
strictly increasing sequence from oldest to newest (vacuously for the
regression-test and simulation profiles, whose lists are empty). -/
theorem builtin_checkpoint_heights_increasing :
    List.Pairwise (fun a b => a < b)
      (MainNetParams.Checkpoints.map Checkpoint.Height) ∧
    List.Pairwise (fun a b => a < b)
      (TestNet4Params.Checkpoints.map Checkpoint.Height) ∧
    List.Pairwise (fun a b => a < b)
      (RegressionNetParams.Checkpoints.map Checkpoint.Height) ∧
    List.Pairwise (fun a b => a < b)
      (SimNetParams.Checkpoints.map Checkpoint.Height) := by
  decide

/-- C8: for every built-in profile and every defined deployment slot,
`StartTime < ExpireTime` unless `ExpireTime` is the "never expires"
sentinel (the maximum signed 64-bit value). -/
theorem builtin_deployment_window_sanity :
    ∀ i : Fin DefinedDeployments,
      ((MainNetParams.Deployments i).StartTime
          < (MainNetParams.Deployments i).ExpireTime ∨
        (MainNetParams.Deployments i).ExpireTime = 9223372036854775807) ∧
      ((TestNet4Params.Deployments i).StartTime
          < (TestNet4Params.Deployments i).ExpireTime ∨
        (TestNet4Params.Deployments i).ExpireTime = 9223372036854775807) ∧
      ((RegressionNetParams.Deployments i).StartTime
          < (RegressionNetParams.Deployments i).ExpireTime ∨
        (RegressionNetParams.Deployments i).ExpireTime
          = 9223372036854775807) ∧
      ((SimNetParams.Deployments i).StartTime
          < (SimNetParams.Deployments i).ExpireTime ∨
        (SimNetParams.Deployments i).ExpireTime = 9223372036854775807) := by
  decide

end EacdChaincfg
